import Mathlib

/-!
Shallow embedding of the benchmark execution and session-streaming engine of
the `test-api` repository (server side: `src/server/src/apache-benchmark.ts`
and the session/broadcast layer), together with theorems settling the frozen
claims about its specification.

Modelling conventions:
* JavaScript numbers are modelled by `JSNumber := Int`.  No theorem in this
  development depends on the numeric value of a parsed metric, only on
  whether a field was set; the two JS number-parsing primitives
  (`parseInt`, `parseFloat`) are therefore passed in as opaque parameters.
* JS string truthiness (`if (s)`) is emptiness, number truthiness is
  non-zeroness; `??` is `Option.getD`.
* The WHATWG `new URL` parser is a platform primitive and is passed in as an
  opaque predicate `urlOk`.
* `JSON.parse` plus the subsequent field extraction with `||` defaults
  (`parsed.code || parsed.statusCode || ''` …) operates on untyped values
  and is modelled as one opaque parameter producing the extracted record.
-/

namespace TestApi

/-- JavaScript numbers, opaque to every theorem here. -/
abbrev JSNumber := Int

inductive HttpMethod
  | GET | POST | PUT | DELETE | HEAD
deriving DecidableEq, Repr

/-- Method name as it appears in the `-m` argument. -/
def HttpMethod.name : HttpMethod → String
  | .GET => "GET"
  | .POST => "POST"
  | .PUT => "PUT"
  | .DELETE => "DELETE"
  | .HEAD => "HEAD"

inductive LogLevel
  | info | error | debug
deriving DecidableEq, Repr

inductive TestStatus
  | preparing | running | completed | stopped | error
deriving DecidableEq, Repr

/-- `ABTestConfig` from `types.ts`.  `headers`/`cookies` are optional maps in
the source; an absent map and an empty map produce identical argument
vectors, so both are modelled as `[]`. -/
structure ABTestConfig where
  url : String
  requests : Int
  concurrency : Int
  timelimit : Option Nat := none
  keepalive : Bool := false
  method : HttpMethod
  headers : List (String × String) := []
  cookies : List (String × String) := []
  dataBody : Option String := none
  contentType : Option String := none
  timeout : Option Nat := none
  verbosity : Option Nat := none
  authUsername : Option String := none
  authPassword : Option String := none
  proxyUrl : Option String := none
  acceptVaryingLength : Bool := false
deriving Repr

/-- JS truthiness of an optional string (`undefined` and `""` are falsy). -/
def truthyStr : Option String → Bool
  | some s => s ≠ ""
  | none => false

/-- JS truthiness of an optional number (`undefined` and `0` are falsy). -/
def truthyNat : Option Nat → Bool
  | some v => v ≠ 0
  | none => false

/-- `validateConfig` of `ApacheBenchmarkRunner`: a chain of independent
checks, each pushing its own message; the sequence of pushes is modelled as
concatenation of the singleton segments in source order.  `new URL(url)`
succeeding is the opaque `urlOk`. -/
def validateConfig (urlOk : String → Bool) (config : ABTestConfig) : List String :=
  (if config.url = "" then ["URL is required"] else [])
  ++ (if config.requests ≤ 0 then ["Requests must be greater than 0"] else [])
  ++ (if config.concurrency ≤ 0 then ["Level concurrency must be greater than 0"] else [])
  ++ (if config.concurrency > config.requests then
        ["Level concurrency must be less than or equal to requests"] else [])
  ++ (if config.method = .POST ∧ ¬ truthyStr config.dataBody then
        ["POST method requires data in dataBody"] else [])
  ++ (if config.method = .PUT ∧ ¬ truthyStr config.dataBody then
        ["PUT method requires data in dataBody"] else [])
  ++ (if ¬ urlOk config.url then ["Invalid URL"] else [])

/-- Optional numeric flag with JS truthiness (`if (config.timelimit) push('-t', …)`). -/
def natFlag (flag : String) : Option Nat → List String
  | some v => if v ≠ 0 then [flag, toString v] else []
  | none => []

/-- Optional string flag with JS truthiness (`if (config.proxyUrl) push('-X', …)`). -/
def strFlag (flag : String) : Option String → List String
  | some s => if s ≠ "" then [flag, s] else []
  | none => []

/-- The `-T` pair pushed after a payload flag when a content type is set. -/
def contentTypeArgs : Option String → List String
  | some ct => if ct ≠ "" then ["-T", ct] else []
  | none => []

/-- The verbosity actually placed in the argument vector:
`Math.max(config.verbosity ?? 3, 3)`. -/
def buildVerbosity (config : ABTestConfig) : Nat :=
  max (config.verbosity.getD 3) 3

/-- `buildCommand`: the sequence of `args.push` calls in source order,
modelled as one concatenation.  Creating the temporary payload file is I/O;
the model receives the name the file would get (`tempFile`) and reports
whether the file is created through the second component (`dataFile`),
exactly mirroring the source's `dataFile` variable. -/
def buildCommand (config : ABTestConfig) (tempFile : String) : List String × Option String :=
  let hasPostGetData := (config.method = .POST ∨ config.method = .GET) ∧ truthyStr config.dataBody
  let hasPutData := config.method = .PUT ∧ truthyStr config.dataBody
  let args :=
    ["ab", "-n", toString config.requests, "-c", toString config.concurrency]
    ++ natFlag "-t" config.timelimit
    ++ (if config.keepalive then ["-k"] else [])
    ++ (if config.method ≠ .GET then ["-m", config.method.name] else [])
    ++ natFlag "-s" config.timeout
    ++ ["-v", toString (buildVerbosity config)]
    ++ (if config.acceptVaryingLength then ["-l"] else [])
    ++ (config.headers.map (fun kv => ["-H", kv.1 ++ ": " ++ kv.2])).flatten
    ++ (config.cookies.map (fun kv => ["-C", kv.1 ++ "=" ++ kv.2])).flatten
    ++ (if truthyStr config.authUsername ∧ truthyStr config.authPassword then
          ["-A", config.authUsername.getD "" ++ ":" ++ config.authPassword.getD ""] else [])
    ++ strFlag "-X" config.proxyUrl
    ++ (if hasPostGetData then ["-p", tempFile] ++ contentTypeArgs config.contentType else [])
    ++ (if hasPutData then ["-u", tempFile] ++ contentTypeArgs config.contentType else [])
    ++ [config.url]
  let dataFile := if hasPostGetData ∨ hasPutData then some tempFile else none
  (args, dataFile)

/-! ### String primitives

The JS string operations are re-implemented over `List Char` by structural
recursion so that every definition evaluates inside the kernel (`String.trim`
and `String.splitOn` from the library do not). -/

/-- JS `String.prototype.trim` (ASCII whitespace suffices for the texts the
engine handles). -/
def jsTrim (s : String) : String :=
  String.mk (((s.data.dropWhile Char.isWhitespace).reverse.dropWhile
    Char.isWhitespace).reverse)

/-- Fuel-driven splitting of a character list on a non-empty separator;
`fuel` bounds the number of consumed characters. -/
def splitGo (sep : List Char) : Nat → List Char → List Char → List (List Char)
  | _, [], acc => [acc.reverse]
  | 0, l, acc => [acc.reverse ++ l]
  | fuel + 1, c :: rest, acc =>
    if sep.isPrefixOf (c :: rest) ∧ sep ≠ [] then
      acc.reverse :: splitGo sep fuel ((c :: rest).drop sep.length) []
    else
      splitGo sep fuel rest (c :: acc)

/-- JS `s.split(sep)` for a non-empty separator. -/
def jsSplit (s sep : String) : List String :=
  (splitGo sep.data s.data.length s.data []).map String.mk

/-- JS `s.includes(pat)` for a non-empty pattern. -/
def jsIncludes (s pat : String) : Bool :=
  2 ≤ (jsSplit s pat).length

/-- JS `s.split(sep)[1]`: the chunk between the first and the second
occurrence of `sep` (`undefined` when `sep` does not occur). -/
def splitSecond (s sep : String) : Option String :=
  (jsSplit s sep).get? 1

/-- JS `s.startsWith(pat)`. -/
def jsStartsWith (s pat : String) : Bool :=
  pat.data.isPrefixOf s.data

/-- JS `s.endsWith(pat)`. -/
def jsEndsWith (s pat : String) : Bool :=
  pat.data.reverse.isPrefixOf s.data.reverse

/-- JS `s.substring(0, n)`. -/
def jsTake (s : String) (n : Nat) : String :=
  String.mk (s.data.take n)

/-! ### Result parsing (`parseResults`, `getStatusMessage`) -/

/-- JS `x || fallback` on an optional string: `undefined` and `""` give the
fallback. -/
def strOr (x : Option String) (fallback : String) : String :=
  match x with
  | some v => if v = "" then fallback else v
  | none => fallback

/-- Value of a run of decimal digits. -/
def digitsToNat (ds : List Char) : Nat :=
  ds.foldl (fun n c => n * 10 + (c.toNat - 48)) 0

/-- Match of the regex `HTTP\/1\.[01] (\d{3})` anchored at the head of the
character list: protocol marker, `0` or `1`, a space, then three digits
(the capture). -/
def httpStatusAt (l : List Char) : Option String :=
  match l with
  | 'H' :: 'T' :: 'T' :: 'P' :: '/' :: '1' :: '.' :: v :: ' ' :: d1 :: d2 :: d3 :: _ =>
    if (v = '0' ∨ v = '1') ∧ d1.isDigit ∧ d2.isDigit ∧ d3.isDigit then
      some (String.mk [d1, d2, d3])
    else
      none
  | _ => none

/-- Leftmost match of `HTTP\/1\.[01] (\d{3})`, returning the captured
three-digit status code. -/
def findStatusCode : List Char → Option String
  | [] => none
  | c :: cs =>
    match httpStatusAt (c :: cs) with
    | some s => some s
    | none => findStatusCode cs

/-- The status-code scan applied to one raw output line: the source guards
with `trimmed.includes('HTTP/1.')` (implied by the regex, kept for
fidelity) and then takes the first regex match. -/
def scanStatusLine (line : String) : Option String :=
  let trimmed := jsTrim line
  if jsIncludes trimmed "HTTP/1." then findStatusCode trimmed.data else none

/-- Increment a code's count in the histogram
(`statusCodes[c] = (statusCodes[c] || 0) + 1`); a fresh key is inserted. -/
def bumpCode : List (String × Nat) → String → List (String × Nat)
  | [], code => [(code, 1)]
  | (c, n) :: rest, code =>
    if c = code then (c, n + 1) :: rest else (c, n) :: bumpCode rest code

/-- One line's contribution to the status-code histogram. -/
def statusStep (acc : List (String × Nat)) (line : String) : List (String × Nat) :=
  match scanStatusLine line with
  | some code => bumpCode acc code
  | none => acc

/-- The status-code histogram accumulated by the parsing loop over all
lines of the captured output. -/
def parseStatusCodes (output : String) : List (String × Nat) :=
  (jsSplit output "\n").foldl statusStep []

/-- Whether a 3-digit key is a canonical JS array index (no leading zero):
such keys are iterated by `Object.entries` in ascending numeric order,
before the remaining string keys in insertion order. -/
def isIndexKey (code : String) : Bool :=
  code.data.head? ≠ some '0'

def insertByCode (p : String × Nat) : List (String × Nat) → List (String × Nat)
  | [] => [p]
  | q :: rest =>
    if digitsToNat p.1.data < digitsToNat q.1.data then p :: q :: rest
    else q :: insertByCode p rest

/-- `Object.entries(statusCodes)` iteration order: array-index keys in
ascending numeric order, then other keys in insertion order. -/
def jsEntries (l : List (String × Nat)) : List (String × Nat) :=
  (l.filter (fun p => isIndexKey p.1)).foldr insertByCode []
  ++ l.filter (fun p => ¬ isIndexKey p.1)

/-- Reason-phrase table of `getStatusMessage`. -/
def getStatusMessage (statusCode : Nat) : String :=
  if statusCode = 200 then "OK"
  else if statusCode = 201 then "Created"
  else if statusCode = 204 then "No Content"
  else if statusCode = 301 then "Moved Permanently"
  else if statusCode = 302 then "Found"
  else if statusCode = 304 then "Not Modified"
  else if statusCode = 400 then "Bad Request"
  else if statusCode = 401 then "Unauthorized"
  else if statusCode = 403 then "Forbidden"
  else if statusCode = 404 then "Not Found"
  else if statusCode = 405 then "Method Not Allowed"
  else if statusCode = 429 then "Too Many Requests"
  else if statusCode = 500 then "Internal Server Error"
  else if statusCode = 502 then "Bad Gateway"
  else if statusCode = 503 then "Service Unavailable"
  else if statusCode = 504 then "Gateway Timeout"
  else "HTTP " ++ toString statusCode

structure ErrorSummaryEntry where
  statusCode : String
  count : Nat
  message : String
deriving DecidableEq, Repr

/-- The category-counting loop over `Object.entries(statusCodes)`:
accumulates (successfulRequests, redirects, clientErrors, serverErrors,
errorSummary).  `parseInt(code)` on the guaranteed 3-digit key is exact
decimal evaluation. -/
def categorizeCodes (entries : List (String × Nat)) :
    Nat × Nat × Nat × Nat × List ErrorSummaryEntry :=
  entries.foldl
    (fun acc p =>
      let (succ, redir, client, server, summary) := acc
      let code := p.1
      let count := p.2
      let statusNum := digitsToNat code.data
      if 200 ≤ statusNum ∧ statusNum < 300 then
        (succ + count, redir, client, server, summary)
      else if 300 ≤ statusNum ∧ statusNum < 400 then
        (succ, redir + count, client, server,
          summary ++ [⟨code, count, getStatusMessage statusNum⟩])
      else if 400 ≤ statusNum ∧ statusNum < 500 then
        (succ, redir, client + count, server,
          summary ++ [⟨code, count, getStatusMessage statusNum⟩])
      else if 500 ≤ statusNum then
        (succ, redir, client, server + count,
          summary ++ [⟨code, count, getStatusMessage statusNum⟩])
      else acc)
    (0, 0, 0, 0, [])

/-- `Partial<ABTestResult>` as produced by `parseResults`: every field is
optional, `none` meaning the property was never assigned. -/
structure ParsedResult where
  serverSoftware : Option String := none
  serverHostname : Option String := none
  serverPort : Option JSNumber := none
  documentPath : Option String := none
  documentLength : Option JSNumber := none
  concurrencyLevel : Option JSNumber := none
  timeTaken : Option JSNumber := none
  completeRequests : Option JSNumber := none
  failedRequests : Option JSNumber := none
  totalTransferred : Option JSNumber := none
  htmlTransferred : Option JSNumber := none
  requestsPerSecond : Option JSNumber := none
  timePerRequest : Option JSNumber := none
  timePerRequestConcurrent : Option JSNumber := none
  transferRate : Option JSNumber := none
  statusCodes : Option (List (String × Nat)) := none
  successfulRequests : Option Nat := none
  clientErrors : Option Nat := none
  serverErrors : Option Nat := none
  redirects : Option Nat := none
  errorSummary : Option (List ErrorSummaryEntry) := none
deriving Repr

/-- `split(label)[1]?.trim() || '0'` subexpression used for the
`parseInt`-style fields. -/
def labelIntToken (trimmed label : String) : String :=
  strOr ((splitSecond trimmed label).map jsTrim) "0"

/-- `split(label)[1]?.trim().split(' ')[0]` subexpression used for the
token-then-parse fields. -/
def labelFirstToken (trimmed label : String) : Option String :=
  (splitSecond trimmed label).map (fun v => ((jsSplit (jsTrim v) " ").headD ""))

/-- `tok ? parse(tok) : 0` with a possibly-undefined token. -/
def tokenOrZero (parse : String → JSNumber) (tok : Option String) : JSNumber :=
  match tok with
  | some t => if t ≠ "" then parse t else 0
  | none => 0

/-- One iteration of the `parseResults` line loop restricted to the labeled
scalar fields (the histogram accumulation of the same loop commutes with
these independent updates and is modelled separately by
`parseStatusCodes`).  Each `includes` guard is an independent `if`, exactly
as in the source. -/
def parseLineFields (parseIntJS parseFloatJS : String → JSNumber)
    (r : ParsedResult) (line : String) : ParsedResult :=
  let trimmed := jsTrim line
  let r := if jsIncludes trimmed "Server Software:" then
    { r with serverSoftware := (splitSecond trimmed "Server Software:").map jsTrim } else r
  let r := if jsIncludes trimmed "Server Hostname:" then
    { r with serverHostname := some (strOr ((splitSecond trimmed "Server Hostname:").map jsTrim) "") } else r
  let r := if jsIncludes trimmed "Server Port:" then
    { r with serverPort := some (parseIntJS (labelIntToken trimmed "Server Port:")) } else r
  let r := if jsIncludes trimmed "Document Path:" then
    { r with documentPath := some (strOr ((splitSecond trimmed "Document Path:").map jsTrim) "") } else r
  let r := if jsIncludes trimmed "Document Length:" then
    { r with documentLength := some (tokenOrZero parseIntJS (labelFirstToken trimmed "Document Length:")) } else r
  let r := if jsIncludes trimmed "Concurrency Level:" then
    { r with concurrencyLevel := some (parseIntJS (labelIntToken trimmed "Concurrency Level:")) } else r
  let r := if jsIncludes trimmed "Time taken for tests:" then
    { r with timeTaken := some (tokenOrZero parseFloatJS (labelFirstToken trimmed "Time taken for tests:")) } else r
  let r := if jsIncludes trimmed "Complete requests:" then
    { r with completeRequests := some (parseIntJS (labelIntToken trimmed "Complete requests:")) } else r
  let r := if jsIncludes trimmed "Failed requests:" then
    { r with failedRequests := some (parseIntJS (labelIntToken trimmed "Failed requests:")) } else r
  let r := if jsIncludes trimmed "Total transferred:" then
    { r with totalTransferred := some (tokenOrZero parseIntJS (labelFirstToken trimmed "Total transferred:")) } else r
  let r := if jsIncludes trimmed "HTML transferred:" then
    { r with htmlTransferred := some (tokenOrZero parseIntJS (labelFirstToken trimmed "HTML transferred:")) } else r
  let r := if jsIncludes trimmed "Requests per second:" then
    { r with requestsPerSecond := some (tokenOrZero parseFloatJS (labelFirstToken trimmed "Requests per second:")) } else r
  let r := if jsIncludes trimmed "Time per request:" ∧
      ¬ jsIncludes trimmed "across all concurrent" then
    { r with timePerRequest := some (tokenOrZero parseFloatJS (labelFirstToken trimmed "Time per request:")) } else r
  let r := if jsIncludes trimmed "Time per request:" ∧
      jsIncludes trimmed "across all concurrent" then
    { r with timePerRequestConcurrent := some (tokenOrZero parseFloatJS (labelFirstToken trimmed "Time per request:")) } else r
  let r := if jsIncludes trimmed "Transfer rate:" then
    { r with transferRate := some (tokenOrZero parseFloatJS (labelFirstToken trimmed "Transfer rate:")) } else r
  r

/-- `parseResults`: fold the line loop over `output.split('\n')`, then, when
the histogram is non-empty (`Object.keys(statusCodes).length > 0`), attach
the histogram and the derived category counts; otherwise those six fields
stay unassigned. -/
def parseResults (parseIntJS parseFloatJS : String → JSNumber)
    (output : String) : ParsedResult :=
  let r := (jsSplit output "\n").foldl (parseLineFields parseIntJS parseFloatJS) {}
  let statusCodes := parseStatusCodes output
  if statusCodes ≠ [] then
    let c := categorizeCodes (jsEntries statusCodes)
    { r with
      statusCodes := some statusCodes
      successfulRequests := some c.1
      redirects := some c.2.1
      clientErrors := some c.2.2.1
      serverErrors := some c.2.2.2.1
      errorSummary := some c.2.2.2.2 }
  else r

/-! ### Final result assembly (`runTest`, exit-code 0 branch) -/

/-- `ABTestResult` from `types.ts` (the `percentileTable` field is never
produced by the server and is omitted). -/
structure ABTestResult where
  serverSoftware : Option String
  serverHostname : String
  serverPort : JSNumber
  documentPath : String
  documentLength : Option JSNumber
  concurrencyLevel : JSNumber
  timeTaken : JSNumber
  completeRequests : JSNumber
  failedRequests : JSNumber
  totalTransferred : JSNumber
  htmlTransferred : JSNumber
  requestsPerSecond : JSNumber
  timePerRequest : JSNumber
  timePerRequestConcurrent : JSNumber
  transferRate : JSNumber
  statusCodes : Option (List (String × Nat))
  successfulRequests : Option Nat
  clientErrors : Option Nat
  serverErrors : Option Nat
  redirects : Option Nat
  errorSummary : Option (List ErrorSummaryEntry)
deriving Repr

/-- The result literal of the exit-code-0 branch of `runTest`.  The source
writes `field: parsedResult.field || default` for the listed fields and then
spreads `...parsedResult` last, so the net value of every field is the
parsed value whenever the parser assigned the property (the spread wins,
including over the `||`'s handling of falsy parsed values) and the literal's
default otherwise.  `serverSoftware`, `documentLength` and the six
histogram-derived fields appear only through the spread, so they stay absent
when unassigned. -/
def assembleResult (config : ABTestConfig) (p : ParsedResult) : ABTestResult where
  serverSoftware := p.serverSoftware
  serverHostname := p.serverHostname.getD ""
  serverPort := p.serverPort.getD 80
  documentPath := p.documentPath.getD ""
  documentLength := p.documentLength
  concurrencyLevel := p.concurrencyLevel.getD config.concurrency
  timeTaken := p.timeTaken.getD 0
  completeRequests := p.completeRequests.getD 0
  failedRequests := p.failedRequests.getD 0
  totalTransferred := p.totalTransferred.getD 0
  htmlTransferred := p.htmlTransferred.getD 0
  requestsPerSecond := p.requestsPerSecond.getD 0
  timePerRequest := p.timePerRequest.getD 0
  timePerRequestConcurrent := p.timePerRequestConcurrent.getD 0
  transferRate := p.transferRate.getD 0
  statusCodes := p.statusCodes
  successfulRequests := p.successfulRequests
  clientErrors := p.clientErrors
  serverErrors := p.serverErrors
  redirects := p.redirects
  errorSummary := p.errorSummary

/-! ### Process supervision (`stopTest`, `runTest` exit handlers) -/

/-- The external process handle; only the `killed` flag is consulted by the
engine (`process && !process.killed`). -/
structure ProcHandle where
  killed : Bool
deriving DecidableEq, Repr

/-- The two runner-owned shared structures: `activeProcesses`
(session id → process handle) and the `stoppedByUser` set. -/
structure RunnerState where
  activeProcesses : List (String × ProcHandle)
  stoppedByUser : List String
deriving DecidableEq, Repr

/-- `activeProcesses.get(sessionId)`. -/
def lookupProc (m : List (String × ProcHandle)) (sessionId : String) : Option ProcHandle :=
  match m with
  | [] => none
  | (k, v) :: rest => if k = sessionId then some v else lookupProc rest sessionId

/-- `activeProcesses.delete(sessionId)`. -/
def removeProc (m : List (String × ProcHandle)) (sessionId : String) :
    List (String × ProcHandle) :=
  m.filter (fun kv => kv.1 ≠ sessionId)

/-- `stoppedByUser.add(sessionId)`. -/
def addStopped (s : List String) (sessionId : String) : List String :=
  if sessionId ∈ s then s else s ++ [sessionId]

/-- `stoppedByUser.delete(sessionId)`. -/
def removeStopped (s : List String) (sessionId : String) : List String :=
  s.filter (fun k => k ≠ sessionId)

/-- Outcome of one `stopTest` call: its boolean return value, the runner
state it leaves behind, and how many kill signals it sent. -/
structure StopEffect where
  result : Bool
  state : RunnerState
  killsSent : Nat
deriving DecidableEq, Repr

/-- `stopTest`: look the live process up; when present and not yet killed,
set the user-cancelled flag, send one forceful kill signal, and remove the
handle; otherwise return `false` with no effect.  The kill primitive is
external and modelled as non-throwing, so the `catch` branch of the source
(reached only if `process.kill` throws) is not represented. -/
def stopTest (s : RunnerState) (sessionId : String) : StopEffect :=
  match lookupProc s.activeProcesses sessionId with
  | some p =>
    if ¬ p.killed then
      { result := true
        state :=
          { activeProcesses := removeProc s.activeProcesses sessionId
            stoppedByUser := addStopped s.stoppedByUser sessionId }
        killsSent := 1 }
    else
      { result := false, state := s, killsSent := 0 }
  | none => { result := false, state := s, killsSent := 0 }

/-- Terminal outcome of one `runTest` invocation, as settled by the process
exit handlers: the promise resolves with `null` (user stop), rejects with
the exit code, resolves with a result, or rejects with a spawn error. -/
inductive RunOutcome
  | cancelled
  | failed (code : Int)
  | succeeded (result : ABTestResult)
  | spawnFailed (message : String)

/-- Everything one exit handler does: the runner state it leaves, the log
events it emits, how many times it deletes the temporary payload file, and
how it settles the run. -/
structure ExitEffects where
  state : RunnerState
  logs : List (LogLevel × String)
  cleanups : Nat
  outcome : RunOutcome

/-- The `close` handler of `runTest` (clearing the heartbeat interval, the
readline interface and the JSON buffer are omitted: they hold no state the
claims mention).  Branches in source order: user-stopped, non-zero exit,
successful parse.  `parseResults` is total here, so the `catch` around it is
never taken and the `finally` cleanup runs exactly once on the zero-exit
branch. -/
def handleClose (config : ABTestConfig) (parseIntJS parseFloatJS : String → JSNumber)
    (sessionId : String) (rs : RunnerState) (dataFile : Option String)
    (output errorOutput : String) (code : Int) : ExitEffects :=
  if sessionId ∈ rs.stoppedByUser then
    { state :=
        { stoppedByUser := removeStopped rs.stoppedByUser sessionId
          activeProcesses := removeProc rs.activeProcesses sessionId }
      logs := [(LogLevel.info, "Test stopped by user")]
      cleanups := if dataFile.isSome then 1 else 0
      outcome := .cancelled }
  else
    let rs' := { rs with activeProcesses := removeProc rs.activeProcesses sessionId }
    if code ≠ 0 then
      { state := rs'
        logs := [(LogLevel.error,
          "Apache Benchmark finished with code " ++ toString code ++ ": " ++ errorOutput)]
        cleanups := 0
        outcome := .failed code }
    else
      let result := assembleResult config (parseResults parseIntJS parseFloatJS output)
      { state := rs'
        logs := [(LogLevel.info,
          "Test completed: " ++ toString result.requestsPerSecond ++ " RPS")]
        cleanups := if dataFile.isSome then 1 else 0
        outcome := .succeeded result }

/-- The `error` handler of `runTest` (spawn-level failure): logs, deletes
the temporary file if one was created, rejects; it does not touch the
runner maps. -/
def handleSpawnError (rs : RunnerState) (dataFile : Option String)
    (message : String) : ExitEffects :=
  { state := rs
    logs := [(LogLevel.error, "Error process: " ++ message)]
    cleanups := if dataFile.isSome then 1 else 0
    outcome := .spawnFailed message }

/-! ### Stream classification (`runTest` stdout/stderr callbacks) -/

/-- Leftmost occurrence of the literal `pat` whose continuation `after`
accepts; the regex scanners below are instances of this search. -/
def findPatNat (pat : List Char) (after : List Char → Option Nat) :
    List Char → Option Nat
  | [] => none
  | c :: cs =>
    match (if pat.isPrefixOf (c :: cs) then after ((c :: cs).drop pat.length) else none) with
    | some v => some v
    | none => findPatNat pat after cs

/-- Match of `/Response code not 2xx \((\d+)\)/`: the literal, a maximal
digit run, a closing parenthesis. -/
def warnStatusMatch (s : String) : Option Nat :=
  findPatNat "Response code not 2xx (".data
    (fun rest =>
      let ds := rest.takeWhile Char.isDigit
      if ds ≠ [] ∧ (rest.drop ds.length).head? = some ')' then some (digitsToNat ds)
      else none)
    s.data

/-- Match of `/Response code = (\d+)/`. -/
def respCodeMatch (s : String) : Option Nat :=
  findPatNat "Response code = ".data
    (fun rest =>
      let ds := rest.takeWhile Char.isDigit
      if ds ≠ [] then some (digitsToNat ds) else none)
    s.data

/-- Match of `/Completed (\d+) requests/`, capture returned verbatim. -/
def completedMatch (s : String) : Option Nat :=
  findPatNat "Completed ".data
    (fun rest =>
      let ds := rest.takeWhile Char.isDigit
      if ds ≠ [] ∧ (" requests".data.isPrefixOf (rest.drop ds.length)) then
        some (digitsToNat ds)
      else none)
    s.data

/-- The buffered "pending structured response".  `JSON.parse` together with
the untyped field extraction (`parsed.status || 'unknown'`,
`parsed.code || parsed.statusCode || ''`,
`parsed.message || 'Unknown error'`, `parsed.statusCode || code || 0`) is a
platform primitive over `any` values and enters the model as one opaque
`parseJson` parameter producing this record. -/
structure PendingJson where
  status : String
  code : String
  message : String
  statusCode : Int
deriving Repr

/-- Cross-line closure state of the stdout reader in `runTest`. -/
structure StdoutState where
  output : String
  responseCount : Nat
  pendingJsonResponse : Option PendingJson
deriving Repr

/-- The `stdoutReader.on('line')` callback.  `stopped` is the value of
`stoppedByUser.has(sessionId)` at callback time, `verbosity` the
`config.verbosity ?? 2` constant of `runTest`.  Returns the updated closure
state and the emitted log events in order. -/
def handleStdoutLine (stopped : Bool) (verbosity : Nat)
    (parseJson : String → Option PendingJson)
    (st : StdoutState) (line : String) : StdoutState × List (LogLevel × String) :=
  if stopped then (st, [])
  else
    let trimmed := jsTrim line
    if trimmed = "" then (st, [])
    else
      let st := { st with output := st.output ++ line ++ "\n" }
      if jsIncludes trimmed "Benchmarking" then
        (st, [(LogLevel.info, "🚀 " ++ trimmed)])
      else if jsStartsWith trimmed "\x7b" ∧ jsEndsWith trimmed "\x7d" then
        match parseJson trimmed with
        | some pj => ({ st with pendingJsonResponse := some pj }, [])
        | none =>
          (st, [(LogLevel.debug, "Failed to parse JSON: " ++ jsTake trimmed 100 ++ "...")])
      else if jsIncludes trimmed "WARNING: Response code not 2xx" then
        let st := { st with responseCount := st.responseCount + 1 }
        let msg := "⚠️ Request #" ++ toString st.responseCount ++ ": "
        let msg :=
          match warnStatusMatch trimmed with
          | some statusCode => msg ++ "statusCode: " ++ toString statusCode ++ ", "
          | none => msg ++ "Non-2xx response, "
        match st.pendingJsonResponse with
        | some pj =>
          let msg := msg ++ "status: " ++ pj.status ++ ",\n\n              code: "
            ++ pj.code ++ ",\n\n              message: " ++ pj.message
          let st := { st with pendingJsonResponse := none }
          if pj.statusCode ≥ 400 then (st, [(LogLevel.error, msg)])
          else if verbosity ≥ 3 then (st, [(LogLevel.debug, msg)])
          else (st, [])
        | none => (st, [(LogLevel.error, msg)])
      else if jsIncludes trimmed "LOG: Response code" then
        match respCodeMatch trimmed with
        | some statusCode =>
          if 200 ≤ statusCode ∧ statusCode < 300 then
            let st := { st with responseCount := st.responseCount + 1 }
            if st.responseCount % 10 = 0 then
              (st, [(LogLevel.debug,
                "Progress: " ++ toString st.responseCount ++ " requests completed")])
            else if verbosity ≥ 3 then
              (st, [(LogLevel.debug,
                "Request #" ++ toString st.responseCount ++ ": HTTP " ++ toString statusCode)])
            else (st, [])
          else (st, [])
        | none => (st, [])
      else (st, [])

/-- The denylist of benign transport/TLS diagnostics. -/
def ignorablePatterns : List String :=
  ["SSL/TLS Handshake", "SSL/TLS State", "SSL/TLS", "SSLv3/TLS write",
   "SSLv3/TLS read", "TLSv1.3 read", "TLSv1.2 read", "TLSv1.1 read",
   "read server certificate", "read encrypted extensions",
   "read server certificate verify", "read finished", "write client hello",
   "before SSL initialization", "before SSL/TLS connection",
   "after SSL/TLS connection", "SSL-Session:", "Session-ID:",
   "Session-ID-ctx:", "Protocol :", "Transport Protocol :",
   "Max Early Data:", "Extended master secret:", "Verify return code:",
   "Timeout :", "Start Time:", "Cipher :", "Cipher Suite", "Cipher Bits:",
   "Resumption PSK:", "PSK identity:", "PSK identity hint:",
   "SRP username:", "Key-Arg   :", "TLS session ticket", "Compression:",
   "Expansion:", "SSL"]

/-- `isIgnorableDebugMessage`. -/
def isIgnorableDebugMessage (message : String) : Bool :=
  ignorablePatterns.any (fun pattern => jsIncludes message pattern)

/-- The `abProcess.stderr.on('data')` callback: appends the chunk to
`errorOutput`, splits it into non-blank lines and classifies each.  Returns
the new `errorOutput` and the emitted events in order. -/
def handleStderrData (stopped : Bool) (errorOutput : String) (chunk : String) :
    String × List (LogLevel × String) :=
  if stopped then (errorOutput, [])
  else
    let errorOutput := errorOutput ++ chunk
    let lines := (jsSplit chunk "\n").filter (fun l => jsTrim l ≠ "")
    let events := lines.foldl
      (fun acc line =>
        let trimmed := jsTrim line
        if trimmed = "" then acc
        else if jsIncludes trimmed "Completed" ∧ jsIncludes trimmed "requests" then
          match completedMatch trimmed with
          | some n => acc ++ [(LogLevel.info, "✅ Finished: " ++ toString n ++ " requests")]
          | none => acc
        else if jsIncludes trimmed "apr_socket_recv" ∨ jsIncludes trimmed "Connection"
            ∨ jsIncludes trimmed "Failed" then
          acc ++ [(LogLevel.error, "❌ Error: " ++ trimmed)]
        else if ¬ jsIncludes trimmed "Finished" ∧ ¬ isIgnorableDebugMessage trimmed then
          acc ++ [(LogLevel.debug, "STDERR: " ++ trimmed)]
        else acc)
      []
    (errorOutput, events)

/-! ### SessionStore (`addLogToSession`, log-buffer cap) -/

/-- `MAX_LOGS_PER_SESSION`. -/
def MAX_LOGS_PER_SESSION : Nat := 500

structure LogEntry where
  timestamp : Nat
  level : LogLevel
  message : String
deriving DecidableEq, Repr

/-- `TestSession` restricted to the state `addLogToSession` can touch. -/
structure TestSession where
  id : String
  status : TestStatus
  logs : List LogEntry
deriving Repr

/-- The buffer update of `addLogToSession`: push the entry, then keep only
the last `MAX_LOGS_PER_SESSION` entries (`logs.slice(-MAX_LOGS_PER_SESSION)`)
when the cap is exceeded. -/
def pushLog (logs : List LogEntry) (entry : LogEntry) : List LogEntry :=
  let logs := logs ++ [entry]
  if MAX_LOGS_PER_SESSION < logs.length then
    logs.drop (logs.length - MAX_LOGS_PER_SESSION)
  else logs

/-- `addLogToSession`: the source looks the session up in the `sessions`
map (modelled by passing the looked-up value), mutates its log buffer, and
then broadcasts the entry over the WebSocket (a send with no effect on the
store); a missing session is a no-op. -/
def addLogToSession : Option TestSession → LogEntry → Option TestSession
  | none, _ => none
  | some s, e => some { s with logs := pushLog s.logs e }

/-! ### Helper lemmas -/

theorem mem_ite_singleton {α : Type} (c : Prop) [Decidable c] (a m : α) :
    (a ∈ if c then [m] else []) ↔ c ∧ a = m := by
  split_ifs with h <;> simp [h]

theorem count_ite_singleton {α : Type} [DecidableEq α] (c : Prop) [Decidable c] (a m : α) :
    List.count a (if c then [m] else []) = if c ∧ a = m then 1 else 0 := by
  split_ifs with h h' h' <;>
    simp_all [List.count_cons, List.count_nil]

theorem bumpCode_ne_nil (acc : List (String × Nat)) (code : String) :
    bumpCode acc code ≠ [] := by
  cases acc with
  | nil => simp [bumpCode]
  | cons p rest => simp only [bumpCode]; split <;> simp

theorem statusFold_eq_nil (lines : List String) (acc : List (String × Nat)) :
    lines.foldl statusStep acc = [] ↔ acc = [] ∧ ∀ l ∈ lines, scanStatusLine l = none := by
  induction lines generalizing acc with
  | nil => simp
  | cons l ls ih =>
    simp only [List.foldl_cons, List.mem_cons]
    rw [ih]
    cases h : scanStatusLine l with
    | none => simp [statusStep, h]
    | some c => simp [statusStep, h, bumpCode_ne_nil]

theorem foldl_parseLineFields_histogram (pf pi : String → JSNumber) (lines : List String)
    (r : ParsedResult) :
    (lines.foldl (parseLineFields pf pi) r).statusCodes = r.statusCodes ∧
    (lines.foldl (parseLineFields pf pi) r).successfulRequests = r.successfulRequests ∧
    (lines.foldl (parseLineFields pf pi) r).clientErrors = r.clientErrors ∧
    (lines.foldl (parseLineFields pf pi) r).serverErrors = r.serverErrors ∧
    (lines.foldl (parseLineFields pf pi) r).redirects = r.redirects ∧
    (lines.foldl (parseLineFields pf pi) r).errorSummary = r.errorSummary := by
  induction lines generalizing r with
  | nil => exact ⟨rfl, rfl, rfl, rfl, rfl, rfl⟩
  | cons l ls ih =>
    simp only [List.foldl_cons]
    refine ⟨?_, ?_, ?_, ?_, ?_, ?_⟩
    · rw [(ih _).1]; simp [parseLineFields, apply_ite ParsedResult.statusCodes]
    · rw [(ih _).2.1]; simp [parseLineFields, apply_ite ParsedResult.successfulRequests]
    · rw [(ih _).2.2.1]; simp [parseLineFields, apply_ite ParsedResult.clientErrors]
    · rw [(ih _).2.2.2.1]; simp [parseLineFields, apply_ite ParsedResult.serverErrors]
    · rw [(ih _).2.2.2.2.1]; simp [parseLineFields, apply_ite ParsedResult.redirects]
    · rw [(ih _).2.2.2.2.2]; simp [parseLineFields, apply_ite ParsedResult.errorSummary]

/-! ### Claim theorems -/

/-- Sample POST configuration used by concrete witnesses. -/
def demoPostConfig : ABTestConfig where
  url := "http://localhost:3000"
  requests := 10
  concurrency := 2
  method := .POST
  dataBody := some "a=1"

/-- Sample GET configuration used by concrete witnesses. -/
def demoGetConfig : ABTestConfig where
  url := "http://localhost"
  requests := 10
  concurrency := 5
  method := .GET

/-- C1 (code bug evidence): of the four exit paths of a run that created a
temporary payload file, the cancelled, succeeded and spawn-error paths
delete the file exactly once, but the non-zero-exit ("failed") path never
deletes it: its branch of the `close` handler rejects and returns before
the `finally` cleanup. -/
theorem tempfile_cleanup_missing_on_failed_exit :
    (handleClose demoPostConfig (fun _ => 0) (fun _ => 0)
        "sess" ⟨[("sess", ⟨false⟩)], []⟩ (some "/tmp/ab-sess-1.txt") "" "err" 1).cleanups
      = 0 ∧
    (handleClose demoPostConfig (fun _ => 0) (fun _ => 0)
        "sess" ⟨[("sess", ⟨false⟩)], ["sess"]⟩ (some "/tmp/ab-sess-1.txt") "" "" 137).cleanups
      = 1 ∧
    (handleClose demoPostConfig (fun _ => 0) (fun _ => 0)
        "sess" ⟨[("sess", ⟨false⟩)], []⟩ (some "/tmp/ab-sess-1.txt") "" "" 0).cleanups
      = 1 ∧
    (handleSpawnError ⟨[], []⟩ (some "/tmp/ab-sess-1.txt") "spawn ab ENOENT").cleanups
      = 1 := by
  refine ⟨?_, ?_, ?_, ?_⟩ <;> rfl

/-- C2: once the user-cancelled flag for the session is observed set, the
stdout line callback and the stderr data callback emit no log event and
leave their state untouched, and the `close` handler emits only the
terminal "stopped by user" info event. -/
theorem stopped_flag_suppresses_stream_events
    (verbosity : Nat) (parseJson : String → Option PendingJson)
    (st : StdoutState) (line : String) (errorOutput chunk : String)
    (config : ABTestConfig) (pf pi : String → JSNumber) (sessionId : String)
    (rs : RunnerState) (dataFile : Option String) (output errOut : String)
    (code : Int) :
    handleStdoutLine true verbosity parseJson st line = (st, []) ∧
    handleStderrData true errorOutput chunk = (errorOutput, []) ∧
    (sessionId ∈ rs.stoppedByUser →
      (handleClose config pf pi sessionId rs dataFile output errOut code).logs
        = [(LogLevel.info, "Test stopped by user")]) := by
  refine ⟨rfl, rfl, fun h => ?_⟩
  simp [handleClose, h]

/-- Witness for C2 at a concrete cancelled session. -/
theorem stopped_flag_suppresses_stream_events_witness :
    "sess" ∈ (⟨[], ["sess"]⟩ : RunnerState).stoppedByUser ∧
    (handleClose demoGetConfig (fun _ => 0) (fun _ => 0) "sess" ⟨[], ["sess"]⟩ none "" "" 0).logs
      = [(LogLevel.info, "Test stopped by user")] :=
  ⟨by decide,
   (stopped_flag_suppresses_stream_events 2 (fun _ => none) ⟨"", 0, none⟩ "" "" ""
      demoGetConfig
      (fun _ => 0) (fun _ => 0) "sess" ⟨[], ["sess"]⟩ none "" "" 0).2.2 (by decide)⟩

/-- C3 counterexample: on an empty transcript no field is parsed, yet the
assembled result's `serverPort` is 80 (not 0), its `concurrencyLevel` is
the config's concurrency (not 0), and `documentLength` stays absent (not
0), refuting "every unset numeric field defaults to 0 except the
histogram-derived fields". -/
theorem result_defaults_counterexample :
    (assembleResult demoGetConfig (parseResults (fun _ => 0) (fun _ => 0) "")).serverPort = 80 ∧
    (assembleResult demoGetConfig (parseResults (fun _ => 0) (fun _ => 0) "")).serverPort ≠ 0 ∧
    (assembleResult demoGetConfig
        (parseResults (fun _ => 0) (fun _ => 0) "")).concurrencyLevel = 5 ∧
    (assembleResult demoGetConfig (parseResults (fun _ => 0) (fun _ => 0) "")).documentLength
      = none := by
  refine ⟨rfl, by decide, rfl, rfl⟩

/-- C3 (amended): in the assembled result every numeric field the parser
left unset defaults to 0, except `serverPort` (defaults to 80),
`concurrencyLevel` (defaults to the config's concurrency),
`documentLength` (stays absent) and the histogram-derived fields (stay
absent). -/
theorem assembleResult_unset_defaults (config : ABTestConfig) (p : ParsedResult) :
    (p.serverPort = none → (assembleResult config p).serverPort = 80) ∧
    (p.concurrencyLevel = none →
      (assembleResult config p).concurrencyLevel = config.concurrency) ∧
    (p.documentLength = none → (assembleResult config p).documentLength = none) ∧
    (p.timeTaken = none → (assembleResult config p).timeTaken = 0) ∧
    (p.completeRequests = none → (assembleResult config p).completeRequests = 0) ∧
    (p.failedRequests = none → (assembleResult config p).failedRequests = 0) ∧
    (p.totalTransferred = none → (assembleResult config p).totalTransferred = 0) ∧
    (p.htmlTransferred = none → (assembleResult config p).htmlTransferred = 0) ∧
    (p.requestsPerSecond = none → (assembleResult config p).requestsPerSecond = 0) ∧
    (p.timePerRequest = none → (assembleResult config p).timePerRequest = 0) ∧
    (p.timePerRequestConcurrent = none →
      (assembleResult config p).timePerRequestConcurrent = 0) ∧
    (p.transferRate = none → (assembleResult config p).transferRate = 0) ∧
    (p.statusCodes = none → (assembleResult config p).statusCodes = none) ∧
    (p.successfulRequests = none → (assembleResult config p).successfulRequests = none) ∧
    (p.clientErrors = none → (assembleResult config p).clientErrors = none) ∧
    (p.serverErrors = none → (assembleResult config p).serverErrors = none) ∧
    (p.redirects = none → (assembleResult config p).redirects = none) ∧
    (p.errorSummary = none → (assembleResult config p).errorSummary = none) := by
  refine ⟨?_, ?_, ?_, ?_, ?_, ?_, ?_, ?_, ?_, ?_, ?_, ?_, ?_, ?_, ?_, ?_, ?_, ?_⟩ <;>
    intro h <;> simp [assembleResult, h]

/-- Witness for C3's amended statement at the all-unset parse record. -/
theorem assembleResult_unset_defaults_witness :
    ({} : ParsedResult).serverPort = none ∧
    (assembleResult demoGetConfig {}).serverPort = 80 :=
  ⟨rfl, (assembleResult_unset_defaults demoGetConfig {}).1 rfl⟩

/-- C5: on the transcript of three status lines `HTTP/1.1 200`,
`HTTP/1.1 200`, `HTTP/1.1 404`, `parseResults` yields the histogram
`{"200": 2, "404": 1}`, successfulRequests 2, clientErrors 1, and
serverErrors present as 0 (the histogram being non-empty). -/
theorem parseResults_three_line_transcript (pf pi : String → JSNumber) :
    (parseResults pf pi "HTTP/1.1 200\nHTTP/1.1 200\nHTTP/1.1 404").statusCodes
      = some [("200", 2), ("404", 1)] ∧
    (parseResults pf pi "HTTP/1.1 200\nHTTP/1.1 200\nHTTP/1.1 404").successfulRequests
      = some 2 ∧
    (parseResults pf pi "HTTP/1.1 200\nHTTP/1.1 200\nHTTP/1.1 404").clientErrors
      = some 1 ∧
    (parseResults pf pi "HTTP/1.1 200\nHTTP/1.1 200\nHTTP/1.1 404").serverErrors
      = some 0 := by
  refine ⟨rfl, rfl, rfl, rfl⟩

/-- C4: when no `protocol version status-code` occurrence is found in the
stdout text, `parseResults` leaves all six histogram-derived fields absent;
when at least one occurrence is found, all six are present.  The third
conjunct characterises "no occurrence found" line by line. -/
theorem parseResults_histogram_presence (pf pi : String → JSNumber) (output : String) :
    (parseStatusCodes output = [] →
      (parseResults pf pi output).statusCodes = none ∧
      (parseResults pf pi output).successfulRequests = none ∧
      (parseResults pf pi output).clientErrors = none ∧
      (parseResults pf pi output).serverErrors = none ∧
      (parseResults pf pi output).redirects = none ∧
      (parseResults pf pi output).errorSummary = none) ∧
    (parseStatusCodes output ≠ [] →
      (parseResults pf pi output).statusCodes.isSome = true ∧
      (parseResults pf pi output).successfulRequests.isSome = true ∧
      (parseResults pf pi output).clientErrors.isSome = true ∧
      (parseResults pf pi output).serverErrors.isSome = true ∧
      (parseResults pf pi output).redirects.isSome = true ∧
      (parseResults pf pi output).errorSummary.isSome = true) ∧
    (parseStatusCodes output = [] ↔
      ∀ l ∈ jsSplit output "\n", scanStatusLine l = none) := by
  refine ⟨fun h => ?_, fun h => ?_, ?_⟩
  · have hf := foldl_parseLineFields_histogram pf pi (jsSplit output "\n") {}
    simp only [parseResults, h, ne_eq, not_true_eq_false, if_false]
    exact ⟨hf.1, hf.2.1, hf.2.2.1, hf.2.2.2.1, hf.2.2.2.2.1, hf.2.2.2.2.2⟩
  · simp [parseResults, h]
  · simpa [parseStatusCodes] using statusFold_eq_nil (jsSplit output "\n") []

/-- Witness for C4 at the empty transcript and a one-line transcript. -/
theorem parseResults_histogram_presence_witness :
    parseStatusCodes "" = [] ∧
    (parseResults (fun _ => 0) (fun _ => 0) "").statusCodes = none ∧
    parseStatusCodes "HTTP/1.1 200" ≠ [] ∧
    (parseResults (fun _ => 0) (fun _ => 0) "HTTP/1.1 200").statusCodes.isSome = true :=
  ⟨rfl, ((parseResults_histogram_presence (fun _ => 0) (fun _ => 0) "").1 rfl).1,
   by decide,
   ((parseResults_histogram_presence (fun _ => 0) (fun _ => 0) "HTTP/1.1 200").2.1
      (by decide)).1⟩

/-- Configuration violating the concurrency-vs-requests constraint, used by
the validation witness. -/
def demoBadConfig : ABTestConfig where
  url := "http://localhost:3000"
  requests := 2
  concurrency := 5
  method := .GET

/-- C6: validation reports the complete list of violated constraints: each
constraint's message is in the returned list exactly when that constraint
is violated, independently of the others, and a config with
concurrency > requests yields exactly one concurrency-exceeds-requests
error. -/
theorem validateConfig_all_violations (urlOk : String → Bool) (config : ABTestConfig) :
    (config.concurrency > config.requests →
      (validateConfig urlOk config).count
        "Level concurrency must be less than or equal to requests" = 1) ∧
    ("URL is required" ∈ validateConfig urlOk config ↔ config.url = "") ∧
    ("Requests must be greater than 0" ∈ validateConfig urlOk config ↔
      config.requests ≤ 0) ∧
    ("Level concurrency must be greater than 0" ∈ validateConfig urlOk config ↔
      config.concurrency ≤ 0) ∧
    ("Level concurrency must be less than or equal to requests" ∈ validateConfig urlOk config ↔
      config.concurrency > config.requests) ∧
    ("POST method requires data in dataBody" ∈ validateConfig urlOk config ↔
      config.method = .POST ∧ ¬ truthyStr config.dataBody) ∧
    ("PUT method requires data in dataBody" ∈ validateConfig urlOk config ↔
      config.method = .PUT ∧ ¬ truthyStr config.dataBody) ∧
    ("Invalid URL" ∈ validateConfig urlOk config ↔ ¬ urlOk config.url) := by
  refine ⟨fun h => ?_, ?_, ?_, ?_, ?_, ?_, ?_, ?_⟩
  · simp [validateConfig, List.count_append, count_ite_singleton, h]
  all_goals simp [validateConfig, List.mem_append, mem_ite_singleton]

/-- Witness for C6 at a config whose concurrency exceeds its requests. -/
theorem validateConfig_all_violations_witness :
    demoBadConfig.concurrency > demoBadConfig.requests ∧
    (validateConfig (fun _ => true) demoBadConfig).count
      "Level concurrency must be less than or equal to requests" = 1 :=
  ⟨by decide,
   (validateConfig_all_violations (fun _ => true) demoBadConfig).1 (by decide)⟩

/-- C7: the argument vector always carries a `-v` verbosity of
`max (requested ?? 3) 3`, which is at least 3 for every caller-requested
verbosity including absent ones. -/
theorem buildCommand_verbosity_floor (config : ABTestConfig) (tempFile : String) :
    3 ≤ buildVerbosity config ∧
    ∃ pre post, (buildCommand config tempFile).1
      = pre ++ ["-v", toString (buildVerbosity config)] ++ post := by
  refine ⟨le_max_right _ _,
    ["ab", "-n", toString config.requests, "-c", toString config.concurrency]
      ++ natFlag "-t" config.timelimit
      ++ (if config.keepalive then ["-k"] else [])
      ++ (if config.method ≠ .GET then ["-m", config.method.name] else [])
      ++ natFlag "-s" config.timeout,
    (if config.acceptVaryingLength then ["-l"] else [])
      ++ (config.headers.map (fun kv => ["-H", kv.1 ++ ": " ++ kv.2])).flatten
      ++ (config.cookies.map (fun kv => ["-C", kv.1 ++ "=" ++ kv.2])).flatten
      ++ (if truthyStr config.authUsername ∧ truthyStr config.authPassword then
            ["-A", config.authUsername.getD "" ++ ":" ++ config.authPassword.getD ""] else [])
      ++ strFlag "-X" config.proxyUrl
      ++ (if (config.method = .POST ∨ config.method = .GET) ∧ truthyStr config.dataBody then
            ["-p", tempFile] ++ contentTypeArgs config.contentType else [])
      ++ (if config.method = .PUT ∧ truthyStr config.dataBody then
            ["-u", tempFile] ++ contentTypeArgs config.contentType else [])
      ++ [config.url], ?_⟩
  simp [buildCommand, List.append_assoc]

theorem lookupProc_removeProc (m : List (String × ProcHandle)) (sessionId : String) :
    lookupProc (removeProc m sessionId) sessionId = none := by
  induction m with
  | nil => rfl
  | cons kv rest ih =>
    by_cases h : kv.1 = sessionId <;> simp [removeProc, lookupProc, h] at ih ⊢ <;>
      simpa [removeProc] using ih

/-- C8: `stopTest` for a session with no live process handle returns
`false`, leaves the state untouched and sends no kill signal; hence a
second call right after a successful stop (which removed the handle) is
idempotent: it returns `false`, sends no second kill and changes nothing. -/
theorem stopTest_noop_and_idempotent (s : RunnerState) (sessionId : String) :
    (lookupProc s.activeProcesses sessionId = none →
      stopTest s sessionId = ⟨false, s, 0⟩) ∧
    ((stopTest s sessionId).result = true →
      stopTest (stopTest s sessionId).state sessionId
        = ⟨false, (stopTest s sessionId).state, 0⟩) := by
  constructor
  · intro h; simp [stopTest, h]
  · intro h
    rcases hl : lookupProc s.activeProcesses sessionId with _ | p
    · simp [stopTest, hl] at h
    · by_cases hk : p.killed
      · simp [stopTest, hl, hk] at h
      · simp [stopTest, hl, hk, lookupProc_removeProc]

/-- Witness for C8: stop a live session, then stop it again. -/
theorem stopTest_noop_and_idempotent_witness :
    (stopTest ⟨[("sess", ⟨false⟩)], []⟩ "sess").result = true ∧
    stopTest (stopTest ⟨[("sess", ⟨false⟩)], []⟩ "sess").state "sess"
      = ⟨false, (stopTest ⟨[("sess", ⟨false⟩)], []⟩ "sess").state, 0⟩ :=
  ⟨by decide, (stopTest_noop_and_idempotent ⟨[("sess", ⟨false⟩)], []⟩ "sess").2 (by decide)⟩

/-- C9: appending to a session's log buffer that respects the cap yields a
buffer that still respects the cap; the retained entries are a suffix of
the appended sequence (oldest evicted first, order of the newest
preserved); below the cap nothing is evicted, and at the cap exactly the
oldest entry is dropped. -/
theorem addLogToSession_cap_fifo (s : TestSession) (e : LogEntry)
    (h : s.logs.length ≤ MAX_LOGS_PER_SESSION) :
    ∃ s', addLogToSession (some s) e = some s' ∧
      s'.logs.length ≤ MAX_LOGS_PER_SESSION ∧
      s'.logs <:+ s.logs ++ [e] ∧
      (s.logs.length < MAX_LOGS_PER_SESSION → s'.logs = s.logs ++ [e]) ∧
      (s.logs.length = MAX_LOGS_PER_SESSION → s'.logs = s.logs.tail ++ [e]) := by
  have hmax : MAX_LOGS_PER_SESSION = 500 := rfl
  refine ⟨{ s with logs := pushLog s.logs e }, rfl, ?_, ?_, ?_, ?_⟩
  · simp only [pushLog]
    split_ifs with hc
    · rw [List.length_drop]
      simp only [List.length_append, List.length_cons, List.length_nil, hmax] at hc ⊢
      omega
    · simp only [List.length_append, List.length_cons, List.length_nil, hmax] at hc h ⊢
      omega
  · simp only [pushLog]
    split_ifs with hc
    · exact List.drop_suffix _ _
    · exact List.suffix_refl _
  · intro hlt
    simp only [pushLog]
    rw [if_neg]
    simp only [List.length_append, List.length_cons, List.length_nil, hmax] at hlt ⊢
    omega
  · intro heq
    simp only [pushLog]
    rw [if_pos]
    · have h1 : (s.logs ++ [e]).length - MAX_LOGS_PER_SESSION = 1 := by
        simp only [List.length_append, List.length_cons, List.length_nil, hmax]
        omega
      rw [h1, List.drop_append_of_le_length (by omega), List.drop_one]
    · simp only [List.length_append, List.length_cons, List.length_nil, hmax]
      omega

/-- Session and entry used by the log-cap witness. -/
def demoSession : TestSession := ⟨"sess", .running, []⟩

def demoEntry : LogEntry := ⟨0, .info, "hello"⟩

/-- Witness for C9 at an empty buffer. -/
theorem addLogToSession_cap_fifo_witness :
    demoSession.logs.length ≤ MAX_LOGS_PER_SESSION ∧
    ∃ s', addLogToSession (some demoSession) demoEntry = some s' ∧
      s'.logs.length ≤ MAX_LOGS_PER_SESSION ∧
      s'.logs <:+ demoSession.logs ++ [demoEntry] ∧
      (demoSession.logs.length < MAX_LOGS_PER_SESSION →
        s'.logs = demoSession.logs ++ [demoEntry]) ∧
      (demoSession.logs.length = MAX_LOGS_PER_SESSION →
        s'.logs = demoSession.logs.tail ++ [demoEntry]) :=
  ⟨by decide, addLogToSession_cap_fifo demoSession demoEntry (by decide)⟩

/-- Configuration with method GET and a non-empty body, used by the payload
witness. -/
def demoGetBodyConfig : ABTestConfig where
  url := "http://localhost:3000"
  requests := 5
  concurrency := 1
  method := .GET
  dataBody := some "a=1"

/-- C10: a GET config with a non-empty body gets a temporary payload file
and the `-p file` (plus `-T` when a content type is set) arguments, through
the same branch as POST, while validation never demands a body for GET. -/
theorem buildCommand_get_body_payload (config : ABTestConfig) (tempFile : String)
    (urlOk : String → Bool) (hm : config.method = .GET)
    (hb : truthyStr config.dataBody = true) :
    (buildCommand config tempFile).2 = some tempFile ∧
    (∃ pre post, (buildCommand config tempFile).1
      = pre ++ (["-p", tempFile] ++ contentTypeArgs config.contentType) ++ post) ∧
    "POST method requires data in dataBody" ∉ validateConfig urlOk config ∧
    "PUT method requires data in dataBody" ∉ validateConfig urlOk config := by
  refine ⟨?_,
    ⟨["ab", "-n", toString config.requests, "-c", toString config.concurrency]
      ++ natFlag "-t" config.timelimit
      ++ (if config.keepalive then ["-k"] else [])
      ++ (if config.method ≠ .GET then ["-m", config.method.name] else [])
      ++ natFlag "-s" config.timeout
      ++ ["-v", toString (buildVerbosity config)]
      ++ (if config.acceptVaryingLength then ["-l"] else [])
      ++ (config.headers.map (fun kv => ["-H", kv.1 ++ ": " ++ kv.2])).flatten
      ++ (config.cookies.map (fun kv => ["-C", kv.1 ++ "=" ++ kv.2])).flatten
      ++ (if truthyStr config.authUsername ∧ truthyStr config.authPassword then
            ["-A", config.authUsername.getD "" ++ ":" ++ config.authPassword.getD ""] else [])
      ++ strFlag "-X" config.proxyUrl,
    (if config.method = .PUT ∧ truthyStr config.dataBody then
        ["-u", tempFile] ++ contentTypeArgs config.contentType else [])
      ++ [config.url], ?_⟩, ?_, ?_⟩
  · simp [buildCommand, hm, hb]
  · simp [buildCommand, hm, hb, List.append_assoc]
  · simp [validateConfig, List.mem_append, mem_ite_singleton, hm]
  · simp [validateConfig, List.mem_append, mem_ite_singleton, hm]

/-- Witness for C10 at a concrete GET-with-body configuration. -/
theorem buildCommand_get_body_payload_witness :
    demoGetBodyConfig.method = HttpMethod.GET ∧
    truthyStr demoGetBodyConfig.dataBody = true ∧
    (buildCommand demoGetBodyConfig "/tmp/ab-w.txt").2 = some "/tmp/ab-w.txt" :=
  ⟨rfl, by decide,
   (buildCommand_get_body_payload demoGetBodyConfig "/tmp/ab-w.txt" (fun _ => true)
      rfl (by decide)).1⟩

end TestApi
